import Mathlib

/-!
Verification of the theplant/ratelimiter repository: a GCRA-style distributed
rate limiter with a transactional (GORM) driver and an atomic Redis-script
driver.

Shallow embedding conventions:
* Instants and durations are unbounded integers.  The Go code computes in
  nanoseconds (`time.Time`, `time.Duration`) and persists microseconds
  (`UnixMicro`), so the GORM model works in nanoseconds with a microsecond
  store; the Lua scripts receive and store microseconds directly.
* Go's `time.Time` zero value (`IsZero`) is modelled as `none` in an
  `Option Int` holding nanoseconds since the Unix epoch otherwise.
* Go's `(value, error)` returns are modelled as a pair of options, one per
  return site, so that the mutual-exclusion of result and error is a theorem
  about the model rather than an artefact of an `Except` encoding.
* `UnixMicro` floors (Go keeps the nanosecond remainder non-negative), which
  for the positive divisor 1000 is integer `/` on `Int`;
  `Duration.Microseconds` truncates toward zero, which is `Int.tdiv`.
* The stored value is a string in the relational store, but the only writer
  is this system and it always writes a decimal integer, so the store is
  modelled as `Option Int` (microseconds); `none` means the row or key is
  absent.
* Panics are modelled as `none` results of the accessor functions.
-/

namespace Ratelimiter

/-- `ReserveRequest` from ratelimiter.go: durations in nanoseconds,
`now = none` models the zero `time.Time` (caller omitted it). -/
structure ReserveRequest where
  key : String
  durationPerToken : Int
  burst : Int
  now : Option Int
  tokens : Int
  maxFutureReserve : Int
deriving DecidableEq

/-- `Reservation` from ratelimiter.go: embeds the request, the outcome flag,
the computed time-to-act (nanoseconds), and the authoritative now actually
used (`none` when the driver leaves the field at its zero value). -/
structure Reservation where
  req : ReserveRequest
  ok : Bool
  timeToAct : Int
  now : Option Int
deriving DecidableEq

/-- Go error values reachable in this package: the `ErrInvalidParameters`
sentinel, a context cancellation, a Postgres error with an SQLSTATE code, a
MySQL error with a number, any other error rendered by its message, and
`errors.Wrap` layers. -/
inductive GoError where
  | invalidParameters
  | ctxCanceled
  | pg (code : String)
  | mysql (errNumber : Int)
  | plain (msg : String)
  | wrap (msg : String) (err : GoError)
deriving DecidableEq

/-- `err.Error()`: wrapped errors render as "outer: inner" (pkg/errors), a
Postgres error mentions its SQLSTATE code. -/
def GoError.message : GoError → String
  | .invalidParameters => "ratelimiter: invalid parameters"
  | .ctxCanceled => "context canceled"
  | .pg code => "(SQLSTATE " ++ code ++ ")"
  | .mysql n => "Error " ++ toString n
  | .plain m => m
  | .wrap m e => m ++ ": " ++ e.message

/-- `errors.As(err, &pgErr)`: first Postgres error in the wrap chain. -/
def GoError.firstPgCode : GoError → Option String
  | .pg code => some code
  | .wrap _ e => e.firstPgCode
  | _ => none

/-- `errors.As(err, &mysqlErr)`: first MySQL error in the wrap chain. -/
def GoError.firstMysqlNumber : GoError → Option Int
  | .mysql n => some n
  | .wrap _ e => e.firstMysqlNumber
  | _ => none

/-- `errors.Is(err, ErrInvalidParameters)`: the sentinel occurs in the
wrap chain. -/
def GoError.isInvalidParameters : GoError → Bool
  | .invalidParameters => true
  | .wrap _ e => e.isInvalidParameters
  | _ => false

/-- does the character list start with the pattern list? -/
def charsLead : List Char → List Char → Bool
  | _, [] => true
  | [], _ :: _ => false
  | a :: as, b :: bs => a == b && charsLead as bs

/-- does the character list contain the pattern list anywhere? -/
def charsHave : List Char → List Char → Bool
  | [], pat => pat.isEmpty
  | a :: as, pat => charsLead (a :: as) pat || charsHave as pat

/-- `strings.Contains` on the rendered message. -/
def strContains (s pat : String) : Bool :=
  charsHave s.data pat.data

/-- `isDuplicateKeyError` from driver_gorm.go: Postgres SQLSTATE 23505,
MySQL error 1062, or a message containing "SQLSTATE 23505". -/
def isDuplicateKeyError (e : GoError) : Bool :=
  match e.firstPgCode with
  | some code => code == "23505"
  | none =>
    match e.firstMysqlNumber with
    | some n => n == 1062
    | none => strContains e.message "SQLSTATE 23505"

/-- `UnixMicro`: nanoseconds to microseconds, flooring (Go keeps the
sub-microsecond remainder non-negative); integer `/` on `Int` is exactly
this floor for the positive divisor 1000. -/
def nanoToMicro (t : Int) : Int := t / 1000

/-- `time.UnixMicro m` as nanoseconds. -/
def microToNano (m : Int) : Int := m * 1000

/-- `Duration.Microseconds()`: truncation toward zero. -/
def durationMicroseconds (d : Int) : Int := Int.tdiv d 1000

/-- the shape every driver `Reserve` produces: the backing-store cell for the
request's key after the call, the returned `*Reservation`, and the returned
`error` (each `none` when the Go value is nil). -/
structure ReserveOutcome where
  store : Option Int
  res : Option Reservation
  err : Option GoError
deriving DecidableEq

/-- validation condition shared by the drivers (driver_gorm.go line 96,
driver_redis.go line 70 without the now check). -/
def badParams (req : ReserveRequest) : Prop :=
  req.key = "" ∨ req.durationPerToken ≤ 0 ∨ req.burst ≤ 0 ∨
    req.tokens ≤ 0 ∨ req.burst < req.tokens

instance (req : ReserveRequest) : Decidable (badParams req) := by
  unfold badParams; infer_instance

/-- one `GormDriver.reserve` activation's external nondeterminism: the
outcome of the locking select (`queryErr`), the database server time
returned by it (`dbNow`, nanoseconds), and the outcomes of the INSERT and
UPDATE statements. -/
structure GormEnv where
  queryErr : Option GoError
  dbNow : Int
  createErr : Option GoError
  updateErr : Option GoError
deriving DecidableEq

/-- a `GormEnv` in which the storage round trips succeed. -/
def benignEnv (dbNow : Int) : GormEnv := ⟨none, dbNow, none, none⟩

/-- `GormDriver.reserve` from driver_gorm.go, one activation (no retry):
parameter validation, context check, then the transaction body.  `testNow`
models `Test && NowFuncFromContextForTest(ctx)` yielding a non-zero time
(`none` covers production mode, a missing context function, and a zero
result, all of which fall through to the database time).  The transaction
commits on a nil return (including the rejected case, which keeps a row
created moments earlier for a previously-unseen key) and rolls back on an
error return. -/
def gormReserveOnce (req : ReserveRequest) (testNow : Option Int)
    (ctxDone : Bool) (env : GormEnv) (store : Option Int) : ReserveOutcome :=
  if badParams req then
    ⟨store, none, some (.wrap "reserve request" .invalidParameters)⟩
  else if ctxDone then
    ⟨store, none, some (.wrap "ratelimiter: context done" .ctxCanceled)⟩
  else
    match env.queryErr with
    | some e => ⟨store, none, some (.wrap "ratelimiter: failed to get kv" e)⟩
    | none =>
      let now := testNow.getD env.dbNow
      let resetValue := now - req.burst * req.durationPerToken
      match store with
      | none =>
        let timeBase := resetValue
        match env.createErr with
        | some e => ⟨store, none, some (.wrap "ratelimiter: failed to create kv" e)⟩
        | none =>
          let timeToAct := timeBase + req.durationPerToken * req.tokens
          if now + req.maxFutureReserve < timeToAct then
            ⟨some (nanoToMicro timeBase), some ⟨req, false, timeToAct, some now⟩, none⟩
          else
            match env.updateErr with
            | some e => ⟨store, none, some (.wrap "ratelimiter: failed to save time to act" e)⟩
            | none => ⟨some (nanoToMicro timeToAct), some ⟨req, true, timeToAct, some now⟩, none⟩
      | some b =>
        let timeBase :=
          if microToNano b < resetValue then resetValue else microToNano b
        let timeToAct := timeBase + req.durationPerToken * req.tokens
        if now + req.maxFutureReserve < timeToAct then
          ⟨store, some ⟨req, false, timeToAct, some now⟩, none⟩
        else
          match env.updateErr with
          | some e => ⟨store, none, some (.wrap "ratelimiter: failed to save time to act" e)⟩
          | none => ⟨some (nanoToMicro timeToAct), some ⟨req, true, timeToAct, some now⟩, none⟩

/-- `GormDriver.Reserve`: run the transaction; on an error that
`isDuplicateKeyError` recognises, and only on the first attempt, rerun the
whole call once (driver_gorm.go lines 172-179). -/
def gormReserve (req : ReserveRequest) (testNow : Option Int) (ctxDone : Bool)
    (env0 env1 : GormEnv) (store : Option Int) : ReserveOutcome :=
  let first := gormReserveOnce req testNow ctxDone env0 store
  match first.err with
  | some e =>
    if isDuplicateKeyError e then gormReserveOnce req testNow ctxDone env1 first.store
    else first
  | none => first

/-- the Lua script embedded as `redisScript` in driver_redis.go: all
quantities in microseconds, result a 2-element list.  Returns the key's
cell after the call and the script result. -/
def redisScriptEval (store : Option Int) (dpt burst tokens now mfr : Int) :
    Option Int × List Int :=
  if now ≤ 0 ∨ dpt ≤ 0 ∨ burst ≤ 0 ∨ tokens ≤ 0 ∨ burst < tokens then
    (store, [-2, 0])
  else
    let resetValue := now - burst * dpt
    let timeBase :=
      match store with
      | none => resetValue
      | some b => if b < resetValue then resetValue else b
    let timeToAct := timeBase + tokens * dpt
    if now + mfr < timeToAct then (store, [-1, timeToAct])
    else (some timeToAct, [0, timeToAct])

/-- the standalone Lua script (src/unnamed/part_006): a 3-element result
carrying the now actually used; a non-positive now argument falls back to
the Redis server clock (`redisTime`, microseconds); for an absent key the
reset floor is written to the key even before the admission decision. -/
def luaScriptEval (store : Option Int) (dpt burst tokens nowArg mfr redisTime : Int) :
    Option Int × List Int :=
  if dpt ≤ 0 ∨ burst ≤ 0 ∨ tokens ≤ 0 ∨ burst < tokens then
    (store, [-2, 0, 0])
  else
    let now := if nowArg ≤ 0 then redisTime else nowArg
    let resetValue := now - burst * dpt
    let withBase : Option Int × Int :=
      match store with
      | none => (some resetValue, resetValue)
      | some b => (store, if b < resetValue then resetValue else b)
    let timeToAct := withBase.2 + tokens * dpt
    if now + mfr < timeToAct then (withBase.1, [-1, timeToAct, now])
    else (some timeToAct, [0, timeToAct, now])

/-- `errUnexpectedScriptResultFormat` from driver_redis.go. -/
def errUnexpectedScriptResultFormat : GoError :=
  .plain "ratelimiter: unexpected script result format"

/-- one element of a Redis array reply as seen through Go's `any`: the
`.(int64)` assertion either succeeds with an integer or fails. -/
inductive RItem where
  | int (n : Int)
  | other
deriving DecidableEq

/-- a Redis reply value as seen through Go's `any`: the `.([]any)`
assertion either succeeds with an array or fails. -/
inductive RVal where
  | arr (elems : List RItem)
  | other
deriving DecidableEq

/-- result handling in `RedisDriver.Reserve` (driver_redis.go lines 93-114):
the reply must be a 2-element array of int64; status -2 becomes
`ErrInvalidParameters`; otherwise a Reservation with `OK := status == 0`
and `TimeToAct := time.UnixMicro(second)` (the now field stays zero). -/
def redisParseResult (req : ReserveRequest) (result : RVal) :
    Option Reservation × Option GoError :=
  match result with
  | .arr [.int status, .int unixMicroToAct] =>
    if status = -2 then
      (none, some (.wrap "lua script" .invalidParameters))
    else
      (some ⟨req, decide (status = 0), microToNano unixMicroToAct, none⟩, none)
  | .arr [.int _, .other] =>
    (none, some (.wrap "unixMicroToAct" errUnexpectedScriptResultFormat))
  | .arr [.other, _] =>
    (none, some (.wrap "status" errUnexpectedScriptResultFormat))
  | _ =>
    (none, some (.wrap "length of result" errUnexpectedScriptResultFormat))

/-- `RedisDriver.Reserve` from driver_redis.go: validation (which, unlike
the GORM driver, also rejects a zero now), context check, then the atomic
script round trip (`evalErr` models an `EvalSha` transport failure) and the
result translation.  The script sees all durations truncated to
microseconds and the request now floored to microseconds. -/
def redisReserve (req : ReserveRequest) (ctxDone : Bool) (store : Option Int)
    (evalErr : Option GoError) : ReserveOutcome :=
  if req.key = "" ∨ req.now = none ∨ req.durationPerToken ≤ 0 ∨
      req.burst ≤ 0 ∨ req.tokens ≤ 0 ∨ req.burst < req.tokens then
    ⟨store, none, some (.wrap "reserve request" .invalidParameters)⟩
  else if ctxDone then
    ⟨store, none, some (.wrap "ratelimiter: context done" .ctxCanceled)⟩
  else
    match evalErr with
    | some e => ⟨store, none, some (.wrap "ratelimiter: failed to execute lua script" e)⟩
    | none =>
      let nowMicro := nanoToMicro (req.now.getD 0)
      let run := redisScriptEval store (durationMicroseconds req.durationPerToken)
        req.burst req.tokens nowMicro (durationMicroseconds req.maxFutureReserve)
      let parsed := redisParseResult req (.arr (run.2.map RItem.int))
      ⟨run.1, parsed.1, parsed.2⟩

/-- `Reservation.DelayFrom` (ratelimiter.go): defined only for an admitted
reservation — calling it on a rejected one panics, modelled as `none`. -/
def Reservation.delayFrom (r : Reservation) (t : Int) : Option Int :=
  if r.ok = false then none
  else
    let delay := r.timeToAct - t
    some (if delay < 0 then 0 else delay)

/-- `Reservation.RetryAfterFrom` (ratelimiter.go): defined only for a
rejected reservation — calling it on an admitted one panics, modelled as
`none`. -/
def Reservation.retryAfterFrom (r : Reservation) (t : Int) : Option Int :=
  if r.ok = true then none
  else
    let delay := r.timeToAct - t - r.req.maxFutureReserve
    some (if delay < 0 then 0 else delay)

/-- `Reservation.Delay()` = `DelayFrom(time.Now())`; the wall clock is a
parameter. -/
def Reservation.delay (r : Reservation) (wallClock : Int) : Option Int :=
  r.delayFrom wallClock

/-- `Reservation.RetryAfter()` = `RetryAfterFrom(time.Now())`. -/
def Reservation.retryAfter (r : Reservation) (wallClock : Int) : Option Int :=
  r.retryAfterFrom wallClock

/-- one call to the standalone script, for iterating reservations against
one key. -/
structure ScriptCall where
  dpt : Int
  burst : Int
  tokens : Int
  nowArg : Int
  mfr : Int
  redisTime : Int
deriving DecidableEq

/-- fold a sequence of standalone-script reservations over one key's cell. -/
def scriptRun (store : Option Int) : List ScriptCall → Option Int
  | [] => store
  | c :: cs =>
    scriptRun (luaScriptEval store c.dpt c.burst c.tokens c.nowArg c.mfr c.redisTime).1 cs

end Ratelimiter

namespace Spec

/-- Spec 4.1 step 1, written from the specification text:
`resetValue = now - B*D`. -/
def resetValue (now burst dpt : Int) : Int := now - burst * dpt

/-- Spec 4.1 step 2, written from the specification text:
`timeBase = max(base, resetValue)` when a base is stored, else the reset
value. -/
def timeBase (base : Option Int) (rv : Int) : Int :=
  match base with
  | some b => max b rv
  | none => rv

/-- Spec 4.1 step 3, written from the specification text:
`timeToAct = timeBase + T*D`. -/
def timeToAct (tb tokens dpt : Int) : Int := tb + tokens * dpt

end Spec

namespace Ratelimiter

/-- every error path of one GORM attempt rolls the transaction back, so the
key's cell is left as it was. -/
theorem gormReserveOnce_shape (req : ReserveRequest) (testNow : Option Int)
    (ctxDone : Bool) (env : GormEnv) (store : Option Int) :
    (gormReserveOnce req testNow ctxDone env store).store = store ∨
      (gormReserveOnce req testNow ctxDone env store).err = none := by
  unfold gormReserveOnce
  dsimp only
  repeat' split
  all_goals simp

theorem gormReserveOnce_store_eq_of_err (req : ReserveRequest)
    (testNow : Option Int) (ctxDone : Bool) (env : GormEnv) (store : Option Int)
    (e : GoError) (h : (gormReserveOnce req testNow ctxDone env store).err = some e) :
    (gormReserveOnce req testNow ctxDone env store).store = store := by
  rcases gormReserveOnce_shape req testNow ctxDone env store with hs | hn
  · exact hs
  · rw [h] at hn
    cases hn

/-- one GORM attempt returns a reservation exactly when it returns no
error. -/
theorem gormReserveOnce_excl (req : ReserveRequest) (testNow : Option Int)
    (ctxDone : Bool) (env : GormEnv) (store : Option Int) :
    ((gormReserveOnce req testNow ctxDone env store).res).isSome =
      ((gormReserveOnce req testNow ctxDone env store).err).isNone := by
  unfold gormReserveOnce
  dsimp only
  repeat' split
  all_goals rfl

/-- the script-result translation returns a reservation exactly when it
returns no error. -/
theorem redisParseResult_excl (req : ReserveRequest) (v : RVal) :
    ((redisParseResult req v).1).isSome = ((redisParseResult req v).2).isNone := by
  unfold redisParseResult
  repeat' split
  all_goals rfl

end Ratelimiter

namespace Ratelimiter

/-- C5: in the transactional driver, an attempt failing with a
duplicate-key (unique-constraint) error is retried exactly once from the
beginning when and only when it is the first attempt: the whole call then
equals the second attempt verbatim, so any error of the retried attempt is
surfaced with no further retry; an attempt failing with a non-duplicate-key
error is surfaced immediately and never retried.  The last conjuncts pin
down what `isDuplicateKeyError` recognises: Postgres SQLSTATE 23505 and
MySQL error 1062 (also through wrap layers), a message containing
"SQLSTATE 23505", and nothing like a plain transport failure. -/
theorem spec_c5_duplicate_key_retry :
    (∀ (req : ReserveRequest) (testNow : Option Int) (ctxDone : Bool)
        (env0 env1 : GormEnv) (store : Option Int) (e : GoError),
      (gormReserveOnce req testNow ctxDone env0 store).err = some e →
      isDuplicateKeyError e = true →
      gormReserve req testNow ctxDone env0 env1 store =
        gormReserveOnce req testNow ctxDone env1 store) ∧
    (∀ (req : ReserveRequest) (testNow : Option Int) (ctxDone : Bool)
        (env0 env1 : GormEnv) (store : Option Int) (e : GoError),
      (gormReserveOnce req testNow ctxDone env0 store).err = some e →
      isDuplicateKeyError e = false →
      gormReserve req testNow ctxDone env0 env1 store =
        gormReserveOnce req testNow ctxDone env0 store) ∧
    (∀ (req : ReserveRequest) (testNow : Option Int) (ctxDone : Bool)
        (env0 env1 : GormEnv) (store : Option Int),
      (gormReserveOnce req testNow ctxDone env0 store).err = none →
      gormReserve req testNow ctxDone env0 env1 store =
        gormReserveOnce req testNow ctxDone env0 store) ∧
    isDuplicateKeyError (.wrap "ratelimiter: failed to create kv" (.pg "23505")) = true ∧
    isDuplicateKeyError (.wrap "ratelimiter: failed to create kv" (.mysql 1062)) = true ∧
    isDuplicateKeyError (.plain "duplicate key value violates unique constraint (SQLSTATE 23505)") = true ∧
    isDuplicateKeyError (.wrap "ratelimiter: failed to get kv" (.plain "connection refused")) = false := by
  refine ⟨?_, ?_, ?_, by decide, by decide, by decide, by decide⟩
  · intro req testNow ctxDone env0 env1 store e h hd
    unfold gormReserve
    dsimp only
    rw [h]
    dsimp only
    rw [hd, if_pos rfl,
      gormReserveOnce_store_eq_of_err req testNow ctxDone env0 store e h]
  · intro req testNow ctxDone env0 env1 store e h hd
    unfold gormReserve
    dsimp only
    rw [h]
    dsimp only
    rw [hd]
    simp
  · intro req testNow ctxDone env0 env1 store h
    unfold gormReserve
    dsimp only
    rw [h]

/-- witness for C5: a first attempt that hits a Postgres duplicate-key
violation on the INSERT is rerun, and the whole call equals the second
attempt. -/
theorem spec_c5_duplicate_key_retry_witness :
    gormReserve ⟨"k", 10, 3, none, 2, 0⟩ (some 100) false
        ⟨none, 0, some (.pg "23505"), none⟩ (benignEnv 100) none =
      gormReserveOnce ⟨"k", 10, 3, none, 2, 0⟩ (some 100) false (benignEnv 100) none :=
  spec_c5_duplicate_key_retry.1 ⟨"k", 10, 3, none, 2, 0⟩ (some 100) false
    ⟨none, 0, some (.pg "23505"), none⟩ (benignEnv 100) none
    (.wrap "ratelimiter: failed to create kv" (.pg "23505")) (by decide) (by decide)

/-- C7: for an admitted reservation, `DelayFrom t` is
`max(0, timeToAct - t)`; for a rejected one, `RetryAfterFrom t` is
`max(0, timeToAct - t - maxFutureReserve)`; and whenever either accessor
returns a duration at all, that duration is non-negative. -/
theorem spec_c7_delay_retry_values :
    (∀ (r : Reservation) (t : Int), r.ok = true →
      r.delayFrom t = some (max 0 (r.timeToAct - t))) ∧
    (∀ (r : Reservation) (t : Int), r.ok = false →
      r.retryAfterFrom t = some (max 0 (r.timeToAct - t - r.req.maxFutureReserve))) ∧
    (∀ (r : Reservation) (t d : Int), r.delayFrom t = some d → 0 ≤ d) ∧
    (∀ (r : Reservation) (t d : Int), r.retryAfterFrom t = some d → 0 ≤ d) := by
  refine ⟨?_, ?_, ?_, ?_⟩
  · intro r t h
    simp only [Reservation.delayFrom, h]
    simp only [Bool.true_eq_false, if_false, Option.some.injEq]
    omega
  · intro r t h
    simp only [Reservation.retryAfterFrom, h]
    simp only [Bool.false_eq_true, if_false, Option.some.injEq]
    omega
  · intro r t d h
    unfold Reservation.delayFrom at h
    split at h
    · exact absurd h (by simp)
    · dsimp only at h
      simp only [Option.some.injEq] at h
      omega
  · intro r t d h
    unfold Reservation.retryAfterFrom at h
    split at h
    · exact absurd h (by simp)
    · dsimp only at h
      simp only [Option.some.injEq] at h
      omega

/-- witness for C7 at a concrete admitted and a concrete rejected
reservation. -/
theorem spec_c7_delay_retry_values_witness :
    Reservation.delayFrom ⟨⟨"k", 10, 3, none, 2, 0⟩, true, 90, some 100⟩ 100
      = some (max 0 (90 - 100)) ∧
    Reservation.retryAfterFrom ⟨⟨"k", 10, 3, none, 2, 5⟩, false, 120, some 100⟩ 100
      = some (max 0 (120 - 100 - 5)) :=
  ⟨spec_c7_delay_retry_values.1 ⟨⟨"k", 10, 3, none, 2, 0⟩, true, 90, some 100⟩ 100 rfl,
   spec_c7_delay_retry_values.2.1 ⟨⟨"k", 10, 3, none, 2, 5⟩, false, 120, some 100⟩ 100 rfl⟩

/-- C8: `DelayFrom` (and hence `Delay`) on a rejected reservation and
`RetryAfterFrom` (and hence `RetryAfter`) on an admitted one panic —
modelled as returning `none` instead of any value — while the matching
accessor never panics; `Delay`/`RetryAfter` are the same functions applied
at the wall clock. -/
theorem spec_c8_accessor_misuse :
    (∀ (r : Reservation) (t : Int), r.ok = false → r.delayFrom t = none) ∧
    (∀ (r : Reservation) (t : Int), r.ok = true → r.retryAfterFrom t = none) ∧
    (∀ (r : Reservation) (t : Int), r.ok = true → r.delayFrom t ≠ none) ∧
    (∀ (r : Reservation) (t : Int), r.ok = false → r.retryAfterFrom t ≠ none) ∧
    (∀ (r : Reservation) (wallClock : Int), r.delay wallClock = r.delayFrom wallClock) ∧
    (∀ (r : Reservation) (wallClock : Int), r.retryAfter wallClock = r.retryAfterFrom wallClock) := by
  refine ⟨?_, ?_, ?_, ?_, fun r w => rfl, fun r w => rfl⟩
  · intro r t h
    simp [Reservation.delayFrom, h]
  · intro r t h
    simp [Reservation.retryAfterFrom, h]
  · intro r t h
    simp [Reservation.delayFrom, h]
  · intro r t h
    simp [Reservation.retryAfterFrom, h]

/-- witness for C8: the wrong accessor on each concrete reservation
returns no value at all. -/
theorem spec_c8_accessor_misuse_witness :
    Reservation.delayFrom ⟨⟨"k", 10, 3, none, 2, 0⟩, false, 120, some 100⟩ 100 = none ∧
    Reservation.retryAfterFrom ⟨⟨"k", 10, 3, none, 2, 0⟩, true, 90, some 100⟩ 100 = none :=
  ⟨spec_c8_accessor_misuse.1 ⟨⟨"k", 10, 3, none, 2, 0⟩, false, 120, some 100⟩ 100 rfl,
   spec_c8_accessor_misuse.2.1 ⟨⟨"k", 10, 3, none, 2, 0⟩, true, 90, some 100⟩ 100 rfl⟩

end Ratelimiter

namespace Ratelimiter

/-- C10: each driver's Reserve returns exactly one of a reservation or an
error: the reservation is present precisely when the error is absent, and
in particular a returned reservation (admitted or rejected) always comes
with a nil error — a rejected admission is never reported as an error. -/
theorem spec_c10_result_error_exclusive :
    (∀ (req : ReserveRequest) (testNow : Option Int) (ctxDone : Bool)
        (env0 env1 : GormEnv) (store : Option Int),
      ((gormReserve req testNow ctxDone env0 env1 store).res).isSome =
        ((gormReserve req testNow ctxDone env0 env1 store).err).isNone) ∧
    (∀ (req : ReserveRequest) (ctxDone : Bool) (store : Option Int)
        (evalErr : Option GoError),
      ((redisReserve req ctxDone store evalErr).res).isSome =
        ((redisReserve req ctxDone store evalErr).err).isNone) ∧
    (∀ (req : ReserveRequest) (testNow : Option Int) (ctxDone : Bool)
        (env0 env1 : GormEnv) (store : Option Int) (r : Reservation),
      (gormReserve req testNow ctxDone env0 env1 store).res = some r →
      (gormReserve req testNow ctxDone env0 env1 store).err = none) ∧
    (∀ (req : ReserveRequest) (ctxDone : Bool) (store : Option Int)
        (evalErr : Option GoError) (r : Reservation),
      (redisReserve req ctxDone store evalErr).res = some r →
      (redisReserve req ctxDone store evalErr).err = none) := by
  have hg : ∀ (req : ReserveRequest) (testNow : Option Int) (ctxDone : Bool)
      (env0 env1 : GormEnv) (store : Option Int),
      ((gormReserve req testNow ctxDone env0 env1 store).res).isSome =
        ((gormReserve req testNow ctxDone env0 env1 store).err).isNone := by
    intro req testNow ctxDone env0 env1 store
    unfold gormReserve
    dsimp only
    rcases h : (gormReserveOnce req testNow ctxDone env0 store).err with _ | e
    · dsimp only
      exact gormReserveOnce_excl req testNow ctxDone env0 store
    · dsimp only
      rcases hd : isDuplicateKeyError e with _ | _
      · simp only [Bool.false_eq_true, if_false]
        exact gormReserveOnce_excl req testNow ctxDone env0 store
      · simp only [if_pos rfl]
        exact gormReserveOnce_excl req testNow ctxDone env1 _
  have hr : ∀ (req : ReserveRequest) (ctxDone : Bool) (store : Option Int)
      (evalErr : Option GoError),
      ((redisReserve req ctxDone store evalErr).res).isSome =
        ((redisReserve req ctxDone store evalErr).err).isNone := by
    intro req ctxDone store evalErr
    unfold redisReserve
    dsimp only
    repeat' split
    · rfl
    · rfl
    · rfl
    · exact redisParseResult_excl req _
  refine ⟨hg, hr, ?_, ?_⟩
  · intro req testNow ctxDone env0 env1 store r h
    have h2 := hg req testNow ctxDone env0 env1 store
    rw [h] at h2
    exact Option.isNone_iff_eq_none.mp h2.symm
  · intro req ctxDone store evalErr r h
    have h2 := hr req ctxDone store evalErr
    rw [h] at h2
    exact Option.isNone_iff_eq_none.mp h2.symm

/-- witness for C10 at concrete calls, including one rejected reservation
carried with a nil error. -/
theorem spec_c10_result_error_exclusive_witness :
    (((gormReserve ⟨"k", 10, 3, none, 2, 0⟩ (some 100) false (benignEnv 77)
        (benignEnv 77) (some 1)).res).isSome =
      ((gormReserve ⟨"k", 10, 3, none, 2, 0⟩ (some 100) false (benignEnv 77)
        (benignEnv 77) (some 1)).err).isNone) ∧
    (gormReserve ⟨"k", 10, 3, none, 2, 0⟩ (some 100) false (benignEnv 77)
        (benignEnv 77) (some 1)).err = none :=
  ⟨spec_c10_result_error_exclusive.1 ⟨"k", 10, 3, none, 2, 0⟩ (some 100) false
      (benignEnv 77) (benignEnv 77) (some 1),
   spec_c10_result_error_exclusive.2.2.1 ⟨"k", 10, 3, none, 2, 0⟩ (some 100) false
      (benignEnv 77) (benignEnv 77) (some 1)
      ⟨⟨"k", 10, 3, none, 2, 0⟩, false, 1020, some 100⟩ (by decide)⟩

end Ratelimiter

namespace Ratelimiter

/-- when the first attempt returns no error, the retry wrapper returns it
unchanged. -/
theorem gormReserve_of_err_none (req : ReserveRequest) (testNow : Option Int)
    (ctxDone : Bool) (env0 env1 : GormEnv) (store : Option Int)
    (h : (gormReserveOnce req testNow ctxDone env0 store).err = none) :
    gormReserve req testNow ctxDone env0 env1 store =
      gormReserveOnce req testNow ctxDone env0 store := by
  unfold gormReserve
  dsimp only
  rw [h]

/-- C1: with valid parameters (non-empty key, D > 0, 0 < B, 0 < T <= B) and
any stored base or none, a reservation computes the spec's
`resetValue = now - B*D`, `timeBase = max(base, resetValue)` (just
`resetValue` on first use), `timeToAct = timeBase + T*D`, admits exactly
when `timeToAct <= now + maxFutureReserve` (the boundary included), and the
returned reservation carries this `timeToAct` — for the GORM driver (store
in microseconds, arithmetic in nanoseconds, `now` the test override or the
database time) and for the standalone script (all in microseconds). -/
theorem spec_c1_schedule_formulas :
    (∀ (req : ReserveRequest) (testNow : Option Int) (dbNow : Int)
        (store : Option Int) (now rv tb tta : Int),
      req.key ≠ "" → 0 < req.durationPerToken → 0 < req.burst →
      0 < req.tokens → req.tokens ≤ req.burst →
      now = testNow.getD dbNow →
      rv = Spec.resetValue now req.burst req.durationPerToken →
      tb = Spec.timeBase (store.map microToNano) rv →
      tta = Spec.timeToAct tb req.tokens req.durationPerToken →
      ∃ (store1 : Option Int) (r : Reservation),
        gormReserve req testNow false (benignEnv dbNow) (benignEnv dbNow) store =
            ⟨store1, some r, none⟩ ∧
          r.timeToAct = tta ∧ r.now = some now ∧
          (r.ok = true ↔ tta ≤ now + req.maxFutureReserve)) ∧
    (∀ (sstore : Option Int) (dpt burst tokens nowArg mfr redisTime rv tb tta : Int),
      0 < dpt → 0 < burst → 0 < tokens → tokens ≤ burst → 0 < nowArg →
      rv = Spec.resetValue nowArg burst dpt →
      tb = Spec.timeBase sstore rv →
      tta = Spec.timeToAct tb tokens dpt →
      ∃ (store1 : Option Int) (st : Int),
        luaScriptEval sstore dpt burst tokens nowArg mfr redisTime =
            (store1, [st, tta, nowArg]) ∧
          (st = 0 ↔ tta ≤ nowArg + mfr)) := by
  constructor
  · intro req testNow dbNow store now rv tb tta hkey hd hb ht htb hnow hrv htbd httad
    have hbad : ¬ badParams req := by
      unfold badParams
      push_neg
      refine ⟨hkey, by omega, by omega, by omega, by omega⟩
    subst hnow hrv htbd httad
    have honce : ∃ (store1 : Option Int) (r : Reservation),
        gormReserveOnce req testNow false (benignEnv dbNow) store =
            ⟨store1, some r, none⟩ ∧
          r.timeToAct = Spec.timeToAct
            (Spec.timeBase (store.map microToNano)
              (Spec.resetValue (testNow.getD dbNow) req.burst req.durationPerToken))
            req.tokens req.durationPerToken ∧
          r.now = some (testNow.getD dbNow) ∧
          (r.ok = true ↔ Spec.timeToAct
            (Spec.timeBase (store.map microToNano)
              (Spec.resetValue (testNow.getD dbNow) req.burst req.durationPerToken))
            req.tokens req.durationPerToken ≤ testNow.getD dbNow + req.maxFutureReserve) := by
      unfold gormReserveOnce benignEnv
      dsimp only
      rw [if_neg hbad]
      simp only [Bool.false_eq_true, if_false]
      rw [mul_comm req.durationPerToken req.tokens]
      cases store with
      | none =>
        simp only [Option.map, Spec.timeBase, Spec.resetValue, Spec.timeToAct]
        split
        · rename_i h
          refine ⟨_, _, rfl, ?_, ?_, ?_⟩
          · rfl
          · rfl
          · constructor
            · intro hh
              exact absurd hh (by simp)
            · intro hle
              exact absurd hle (not_le.mpr h)
        · rename_i h
          refine ⟨_, _, rfl, ?_, ?_, ?_⟩
          · rfl
          · rfl
          · constructor
            · intro _
              exact not_lt.mp h
            · intro _
              rfl
      | some b =>
        simp only [Option.map, Spec.timeBase, Spec.resetValue, Spec.timeToAct]
        rcases lt_or_le (microToNano b)
            (testNow.getD dbNow - req.burst * req.durationPerToken) with h1 | h1
        · rw [if_pos h1, max_eq_right h1.le]
          split
          · rename_i h
            refine ⟨_, _, rfl, ?_, ?_, ?_⟩
            · rfl
            · rfl
            · constructor
              · intro hh
                exact absurd hh (by simp)
              · intro hle
                exact absurd hle (not_le.mpr h)
          · rename_i h
            refine ⟨_, _, rfl, ?_, ?_, ?_⟩
            · rfl
            · rfl
            · constructor
              · intro _
                exact not_lt.mp h
              · intro _
                rfl
        · rw [if_neg (not_lt.mpr h1), max_eq_left h1]
          split
          · rename_i h
            refine ⟨_, _, rfl, ?_, ?_, ?_⟩
            · rfl
            · rfl
            · constructor
              · intro hh
                exact absurd hh (by simp)
              · intro hle
                exact absurd hle (not_le.mpr h)
          · rename_i h
            refine ⟨_, _, rfl, ?_, ?_, ?_⟩
            · rfl
            · rfl
            · constructor
              · intro _
                exact not_lt.mp h
              · intro _
                rfl
    obtain ⟨s1, r, heq, h2, h3, h4⟩ := honce
    refine ⟨s1, r, ?_, h2, h3, h4⟩
    rw [gormReserve_of_err_none req testNow false (benignEnv dbNow) (benignEnv dbNow) store
      (by rw [heq])]
    exact heq
  · intro sstore dpt burst tokens nowArg mfr redisTime rv tb tta hd hb ht htb hn hrv htbd httad
    have hbad : ¬ (dpt ≤ 0 ∨ burst ≤ 0 ∨ tokens ≤ 0 ∨ burst < tokens) := by
      push_neg
      refine ⟨by omega, by omega, by omega, by omega⟩
    subst hrv htbd httad
    unfold luaScriptEval
    rw [if_neg hbad]
    dsimp only
    rw [if_neg (by omega : ¬ nowArg ≤ 0)]
    cases sstore with
    | none =>
      simp only [Spec.timeBase, Spec.resetValue, Spec.timeToAct]
      split
      · rename_i h
        refine ⟨_, -1, rfl, ?_⟩
        constructor
        · intro hh
          exact absurd hh (by simp)
        · intro hle
          exact absurd hle (not_le.mpr h)
      · rename_i h
        refine ⟨_, 0, rfl, ?_⟩
        constructor
        · intro _
          exact not_lt.mp h
        · intro _
          rfl
    | some b =>
      simp only [Spec.timeBase, Spec.resetValue, Spec.timeToAct]
      rcases lt_or_le b (nowArg - burst * dpt) with h1 | h1
      · rw [if_pos h1, max_eq_right h1.le]
        split
        · rename_i h
          refine ⟨_, -1, rfl, ?_⟩
          constructor
          · intro hh
            exact absurd hh (by simp)
          · intro hle
            exact absurd hle (not_le.mpr h)
        · rename_i h
          refine ⟨_, 0, rfl, ?_⟩
          constructor
          · intro _
            exact not_lt.mp h
          · intro _
            rfl
      · rw [if_neg (not_lt.mpr h1), max_eq_left h1]
        split
        · rename_i h
          refine ⟨_, -1, rfl, ?_⟩
          constructor
          · intro hh
            exact absurd hh (by simp)
          · intro hle
            exact absurd hle (not_le.mpr h)
        · rename_i h
          refine ⟨_, 0, rfl, ?_⟩
          constructor
          · intro _
            exact not_lt.mp h
          · intro _
            rfl


/-- witness for C1: a stored base of 1 microsecond, test now 100ns, burst 3,
10ns per token, 2 tokens — rejected at time-to-act 1020ns; and a fresh key
under the standalone script admitted at 90 microseconds. -/
theorem spec_c1_schedule_formulas_witness :
    (∃ (store1 : Option Int) (r : Reservation),
      gormReserve ⟨"k", 10, 3, none, 2, 0⟩ (some 100) false (benignEnv 77)
          (benignEnv 77) (some 1) = ⟨store1, some r, none⟩ ∧
        r.timeToAct = 1020 ∧ r.now = some 100 ∧
        (r.ok = true ↔ (1020 : Int) ≤ 100 + 0)) ∧
    (∃ (store1 : Option Int) (st : Int),
      luaScriptEval none 10 3 2 100 0 55 = (store1, [st, 90, 100]) ∧
        (st = 0 ↔ (90 : Int) ≤ 100 + 0)) :=
  ⟨spec_c1_schedule_formulas.1 ⟨"k", 10, 3, none, 2, 0⟩ (some 100) 77 (some 1)
      100 70 1000 1020 (by decide) (by decide) (by decide) (by decide)
      (by decide) (by decide) (by decide) (by decide) (by decide),
   spec_c1_schedule_formulas.2 none 10 3 2 100 0 55 70 70 90
      (by decide) (by decide) (by decide) (by decide) (by decide)
      (by decide) (by decide) (by decide)⟩


/-- a rejected GORM attempt with a non-negative reservation horizon leaves
the key's cell untouched (for an unseen key, rejection is impossible, so
the freshly created row never survives a rejection). -/
theorem gormReserveOnce_rejected_frame (req : ReserveRequest)
    (testNow : Option Int) (ctxDone : Bool) (env : GormEnv) (store : Option Int)
    (r : Reservation) (hM : 0 ≤ req.maxFutureReserve)
    (hres : (gormReserveOnce req testNow ctxDone env store).res = some r)
    (hok : r.ok = false) :
    (gormReserveOnce req testNow ctxDone env store).store = store := by
  revert hres hok
  unfold gormReserveOnce
  dsimp only
  by_cases hb : badParams req
  · rw [if_pos hb]
    intro hres hok
    exact absurd hres (by simp)
  · rw [if_neg hb]
    unfold badParams at hb
    push_neg at hb
    obtain ⟨hkey, hD, hB, hT, hTB⟩ := hb
    repeat' split
    all_goals intro hres hok
    all_goals first
      | rfl
      | exact Option.noConfusion hres
      | (have hr := Option.some.inj hres
         rw [← hr] at hok
         exact Bool.noConfusion hok)
      | (exfalso
         linarith [mul_le_mul_of_nonneg_left hTB hD.le,
           mul_comm req.burst req.durationPerToken, hM])

/-- a returned reservation comes from the first or from the retried
attempt, both run against the original cell. -/
theorem gormReserve_res_some_cases (req : ReserveRequest) (testNow : Option Int)
    (ctxDone : Bool) (env0 env1 : GormEnv) (store : Option Int) (r : Reservation)
    (h : (gormReserve req testNow ctxDone env0 env1 store).res = some r) :
    (gormReserve req testNow ctxDone env0 env1 store =
        gormReserveOnce req testNow ctxDone env0 store ∧
      (gormReserveOnce req testNow ctxDone env0 store).res = some r) ∨
    (gormReserve req testNow ctxDone env0 env1 store =
        gormReserveOnce req testNow ctxDone env1 store ∧
      (gormReserveOnce req testNow ctxDone env1 store).res = some r) := by
  unfold gormReserve at h ⊢
  dsimp only at h ⊢
  rcases he : (gormReserveOnce req testNow ctxDone env0 store).err with _ | e
  · rw [he] at h
    dsimp only at h ⊢
    exact Or.inl ⟨rfl, h⟩
  · rw [he] at h
    dsimp only at h ⊢
    by_cases hd : isDuplicateKeyError e = true
    · rw [if_pos hd] at h ⊢
      rw [gormReserveOnce_store_eq_of_err req testNow ctxDone env0 store e he] at h ⊢
      exact Or.inr ⟨rfl, h⟩
    · rw [if_neg hd] at h ⊢
      exact Or.inl ⟨rfl, h⟩

/-- C2 counterexample: a request with a negative max-future-reserve (which
no driver validates) against a previously-unseen key is rejected, yet the
GORM driver has created and committed the key's row at the reset floor, and
the standalone script has likewise written the reset floor — the store
state after the call differs from the state before (absent). -/
theorem spec_c2_counterexample :
    (gormReserve ⟨"k", 10, 1, none, 1, -1⟩ (some 100) false (benignEnv 0)
        (benignEnv 0) none =
      ⟨some 0, some ⟨⟨"k", 10, 1, none, 1, -1⟩, false, 100, some 100⟩, none⟩) ∧
    luaScriptEval none 10 1 1 100 (-1) 0 = (some 90, [-1, 100, 100]) := by
  decide

/-- C2 (amended): a rejected reservation leaves the stored time base
untouched whenever the request's max-future-reserve is non-negative (as the
data model requires), and — for any max-future-reserve — whenever the key
already existed; only an unvalidated negative max-future-reserve on an
unseen key can combine a rejection with a write (the row is created at the
reset floor before the admission decision).  Stated for the GORM driver
(including the retry path) and for the standalone script. -/
theorem spec_c2_reject_frame :
    (∀ (req : ReserveRequest) (testNow : Option Int) (ctxDone : Bool)
        (env0 env1 : GormEnv) (store : Option Int) (r : Reservation),
      0 ≤ req.maxFutureReserve →
      (gormReserve req testNow ctxDone env0 env1 store).res = some r →
      r.ok = false →
      (gormReserve req testNow ctxDone env0 env1 store).store = store) ∧
    (∀ (req : ReserveRequest) (testNow : Option Int) (ctxDone : Bool)
        (env0 env1 : GormEnv) (b : Int) (r : Reservation),
      (gormReserve req testNow ctxDone env0 env1 (some b)).res = some r →
      r.ok = false →
      (gormReserve req testNow ctxDone env0 env1 (some b)).store = some b) ∧
    (∀ (sstore : Option Int) (dpt burst tokens nowArg mfr redisTime : Int)
        (t n : Int) (sres : Option Int),
      0 ≤ mfr →
      luaScriptEval sstore dpt burst tokens nowArg mfr redisTime =
        (sres, [-1, t, n]) →
      sres = sstore) ∧
    (∀ (b : Int) (dpt burst tokens nowArg mfr redisTime : Int)
        (t n : Int) (sres : Option Int),
      luaScriptEval (some b) dpt burst tokens nowArg mfr redisTime =
        (sres, [-1, t, n]) →
      sres = some b) := by
  have hfound : ∀ (req : ReserveRequest) (testNow : Option Int) (ctxDone : Bool)
      (env : GormEnv) (b : Int) (r : Reservation),
      (gormReserveOnce req testNow ctxDone env (some b)).res = some r →
      r.ok = false →
      (gormReserveOnce req testNow ctxDone env (some b)).store = some b := by
    intro req testNow ctxDone env b r hres hok
    revert hres hok
    unfold gormReserveOnce
    dsimp only
    repeat' split
    all_goals intro hres hok
    all_goals first
      | rfl
      | exact Option.noConfusion hres
      | (have hr := Option.some.inj hres
         rw [← hr] at hok
         exact Bool.noConfusion hok)
  refine ⟨?_, ?_, ?_, ?_⟩
  · intro req testNow ctxDone env0 env1 store r hM hres hok
    rcases gormReserve_res_some_cases req testNow ctxDone env0 env1 store r hres
      with ⟨heq, h1⟩ | ⟨heq, h1⟩ <;> rw [heq] <;>
      exact gormReserveOnce_rejected_frame req testNow ctxDone _ store r hM h1 hok
  · intro req testNow ctxDone env0 env1 b r hres hok
    rcases gormReserve_res_some_cases req testNow ctxDone env0 env1 (some b) r hres
      with ⟨heq, h1⟩ | ⟨heq, h1⟩ <;> rw [heq] <;>
      exact hfound req testNow ctxDone _ b r h1 hok
  · intro sstore dpt burst tokens nowArg mfr redisTime t n sres hM h
    revert h
    unfold luaScriptEval
    by_cases hbad : (dpt ≤ 0 ∨ burst ≤ 0 ∨ tokens ≤ 0 ∨ burst < tokens)
    · rw [if_pos hbad]
      intro h
      have h2 := congrArg (fun p => p.2) h
      simp only [List.cons.injEq] at h2
      exact absurd h2.1 (by decide)
    · rw [if_neg hbad]
      push_neg at hbad
      obtain ⟨hD, hB, hT, hTB⟩ := hbad
      dsimp only
      cases sstore with
      | none =>
        dsimp only
        repeat' split
        all_goals intro h
        all_goals first
          | (exfalso
             linarith [mul_le_mul_of_nonneg_right hTB hD.le, hM])
          | (have h2 := congrArg (fun p => p.2) h
             simp only [List.cons.injEq] at h2
             exact absurd h2.1 (by decide))
      | some b =>
        dsimp only
        repeat' split
        all_goals intro h
        all_goals first
          | exact (congrArg (fun p => p.1) h).symm
          | (have h2 := congrArg (fun p => p.2) h
             simp only [List.cons.injEq] at h2
             exact absurd h2.1 (by decide))
  · intro b dpt burst tokens nowArg mfr redisTime t n sres h
    revert h
    unfold luaScriptEval
    by_cases hbad : (dpt ≤ 0 ∨ burst ≤ 0 ∨ tokens ≤ 0 ∨ burst < tokens)
    · rw [if_pos hbad]
      intro h
      have h2 := congrArg (fun p => p.2) h
      simp only [List.cons.injEq] at h2
      exact absurd h2.1 (by decide)
    · rw [if_neg hbad]
      dsimp only
      repeat' split
      all_goals intro h
      all_goals first
        | exact (congrArg (fun p => p.1) h).symm
        | (have h2 := congrArg (fun p => p.2) h
           simp only [List.cons.injEq] at h2
           exact absurd h2.1 (by decide))

/-- witness for the amended C2: a rejected reservation against an existing
cell leaves it unchanged. -/
theorem spec_c2_reject_frame_witness :
    (gormReserve ⟨"k", 10, 3, none, 2, 0⟩ (some 100) false (benignEnv 77)
      (benignEnv 77) (some 1)).store = some 1 :=
  spec_c2_reject_frame.1 ⟨"k", 10, 3, none, 2, 0⟩ (some 100) false (benignEnv 77)
    (benignEnv 77) (some 1) ⟨⟨"k", 10, 3, none, 2, 0⟩, false, 1020, some 100⟩
    (by decide) (by decide) (by decide)


/-- flooring a nanosecond bound preserves a microsecond lower bound. -/
theorem le_nanoToMicro_of_le (b t : Int) (h : b * 1000 ≤ t) :
    b ≤ nanoToMicro t := by
  unfold nanoToMicro
  omega

/-- a successful GORM attempt stores exactly the microsecond truncation of
the computed time-to-act, and that value is at least any previously stored
base. -/
theorem gormReserveOnce_success_store (req : ReserveRequest)
    (testNow : Option Int) (ctxDone : Bool) (env : GormEnv) (store : Option Int)
    (r : Reservation)
    (hres : (gormReserveOnce req testNow ctxDone env store).res = some r)
    (hok : r.ok = true) :
    (gormReserveOnce req testNow ctxDone env store).store =
        some (nanoToMicro r.timeToAct) ∧
      ∀ b, store = some b → b ≤ nanoToMicro r.timeToAct := by
  revert hres hok
  unfold gormReserveOnce
  dsimp only
  by_cases hb : badParams req
  · rw [if_pos hb]
    intro hres hok
    exact Option.noConfusion hres
  · rw [if_neg hb]
    unfold badParams at hb
    push_neg at hb
    obtain ⟨hkey, hD, hB, hT, hTB⟩ := hb
    simp only [microToNano]
    repeat' split
    all_goals intro hres hok
    all_goals first
      | exact Option.noConfusion hres
      | (have hr := Option.some.inj hres
         rw [← hr] at hok
         exact Bool.noConfusion hok)
      | (have hr := Option.some.inj hres
         rw [← hr]
         exact ⟨rfl, fun b2 hb2 => Option.noConfusion hb2⟩)
      | (have hr := Option.some.inj hres
         rw [← hr]
         dsimp only
         refine ⟨rfl, ?_⟩
         intro b2 hb2
         have hbe := Option.some.inj hb2
         subst hbe
         exact le_nanoToMicro_of_le _ _ (by linarith [mul_pos hD hT]))

/-- one standalone-script call never lowers an existing stored base. -/
theorem luaScript_step_mono (store : Option Int)
    (dpt burst tokens nowArg mfr redisTime b : Int) (h : store = some b) :
    ∃ b2, (luaScriptEval store dpt burst tokens nowArg mfr redisTime).1 = some b2 ∧
      b ≤ b2 := by
  subst h
  unfold luaScriptEval
  by_cases hbad : (dpt ≤ 0 ∨ burst ≤ 0 ∨ tokens ≤ 0 ∨ burst < tokens)
  · rw [if_pos hbad]
    exact ⟨b, rfl, le_refl b⟩
  · rw [if_neg hbad]
    push_neg at hbad
    obtain ⟨hD, hB, hT, hTB⟩ := hbad
    dsimp only
    repeat' split
    all_goals first
      | exact ⟨b, rfl, le_refl b⟩
      | exact ⟨_, rfl, by linarith [mul_pos hT hD]⟩

/-- folding standalone-script calls over a key's cell never lowers an
existing stored base. -/
theorem scriptRun_mono (calls : List ScriptCall) :
    ∀ (store : Option Int) (b : Int), store = some b →
      ∀ bN, scriptRun store calls = some bN → b ≤ bN := by
  induction calls with
  | nil =>
    intro store b hb bN h
    unfold scriptRun at h
    rw [hb] at h
    exact le_of_eq (Option.some.inj h)
  | cons c cs ih =>
    intro store b hb bN h
    obtain ⟨b2, h1, h2⟩ :=
      luaScript_step_mono store c.dpt c.burst c.tokens c.nowArg c.mfr c.redisTime b hb
    unfold scriptRun at h
    exact le_trans h2 (ih _ b2 h1 bN h)

/-- C3: after any successful reservation the stored base equals the
reservation's time-to-act (truncated to the store's microsecond unit in the
GORM driver, exact in the script), it is at least any previously stored
base, and along any sequence of script calls for one key the stored base
never decreases. -/
theorem spec_c3_store_monotone :
    (∀ (req : ReserveRequest) (testNow : Option Int) (ctxDone : Bool)
        (env0 env1 : GormEnv) (store : Option Int) (r : Reservation),
      (gormReserve req testNow ctxDone env0 env1 store).res = some r →
      r.ok = true →
      (gormReserve req testNow ctxDone env0 env1 store).store =
          some (nanoToMicro r.timeToAct) ∧
        ∀ b, store = some b → b ≤ nanoToMicro r.timeToAct) ∧
    (∀ (sstore : Option Int) (dpt burst tokens nowArg mfr redisTime t n : Int)
        (sres : Option Int),
      luaScriptEval sstore dpt burst tokens nowArg mfr redisTime =
        (sres, [0, t, n]) →
      sres = some t ∧ ∀ b, sstore = some b → b ≤ t) ∧
    (∀ (calls : List ScriptCall) (store : Option Int) (b : Int),
      store = some b →
      ∀ bN, scriptRun store calls = some bN → b ≤ bN) := by
  refine ⟨?_, ?_, scriptRun_mono⟩
  · intro req testNow ctxDone env0 env1 store r hres hok
    rcases gormReserve_res_some_cases req testNow ctxDone env0 env1 store r hres
      with ⟨heq, h1⟩ | ⟨heq, h1⟩ <;> rw [heq] <;>
      exact gormReserveOnce_success_store req testNow ctxDone _ store r h1 hok
  · intro sstore dpt burst tokens nowArg mfr redisTime t n sres h
    revert h
    unfold luaScriptEval
    by_cases hbad : (dpt ≤ 0 ∨ burst ≤ 0 ∨ tokens ≤ 0 ∨ burst < tokens)
    · rw [if_pos hbad]
      intro h
      have h2 := congrArg (fun p => p.2) h
      simp only [List.cons.injEq] at h2
      exact absurd h2.1 (by decide)
    · rw [if_neg hbad]
      push_neg at hbad
      obtain ⟨hD, hB, hT, hTB⟩ := hbad
      dsimp only
      cases sstore with
      | none =>
        dsimp only
        repeat' split
        all_goals intro h
        all_goals first
          | (have h1 := congrArg (fun p => p.1) h
             have h2 := congrArg (fun p => p.2) h
             simp only [List.cons.injEq] at h2
             refine ⟨?_, fun b2 hb2 => Option.noConfusion hb2⟩
             rw [← h2.2.1]
             exact h1.symm)
          | (have h2 := congrArg (fun p => p.2) h
             simp only [List.cons.injEq] at h2
             exact absurd h2.1 (by decide))
      | some b =>
        dsimp only
        repeat' split
        all_goals intro h
        all_goals first
          | (have h1 := congrArg (fun p => p.1) h
             have h2 := congrArg (fun p => p.2) h
             simp only [List.cons.injEq] at h2
             refine ⟨?_, ?_⟩
             · rw [← h2.2.1]
               exact h1.symm
             · intro b2 hb2
               have hbe := Option.some.inj hb2
               subst hbe
               linarith [mul_pos hT hD, h2.2.1])
          | (have h2 := congrArg (fun p => p.2) h
             simp only [List.cons.injEq] at h2
             exact absurd h2.1 (by decide))

/-- witness for C3: admitting 2 tokens over a stored base of 0 stores the
truncated time-to-act, which is no smaller than the old base. -/
theorem spec_c3_store_monotone_witness :
    (gormReserve ⟨"k", 10, 3, none, 2, 0⟩ (some 100) false (benignEnv 77)
        (benignEnv 77) (some 0)).store = some (nanoToMicro 90) ∧
      ∀ b, (some 0 : Option Int) = some b → b ≤ nanoToMicro 90 :=
  spec_c3_store_monotone.1 ⟨"k", 10, 3, none, 2, 0⟩ (some 100) false (benignEnv 77)
    (benignEnv 77) (some 0) ⟨⟨"k", 10, 3, none, 2, 0⟩, true, 90, some 100⟩
    (by decide) rfl


/-- C4 counterexample: (i) the script driver in src rejects an omitted
(zero) now with an invalid-parameters error instead of succeeding on the
cache server's clock; (ii) the transactional driver ignores a
caller-supplied explicit now (request now = 5ns) and decides with the
database server time (1000ns) instead. -/
theorem spec_c4_counterexample :
    redisReserve ⟨"k", 1000, 1, none, 1, 0⟩ false none none =
        ⟨none, none, some (.wrap "reserve request" .invalidParameters)⟩ ∧
    (gormReserve ⟨"k", 10, 1, some 5, 1, 0⟩ none false (benignEnv 1000)
        (benignEnv 1000) none).res =
      some ⟨⟨"k", 10, 1, some 5, 1, 0⟩, true, 1000, some 1000⟩ := by
  decide

/-- C4 (amended): the transactional driver never reads the request's now
field — every returned reservation reports the test-context override when
present and otherwise the database server time; the script driver requires
an explicit non-zero now and fails with an invalid-parameters error when it
is omitted; the standalone script itself uses the cache server clock for a
non-positive now argument and the supplied argument otherwise. -/
theorem spec_c4_clock_contract :
    (∀ (req : ReserveRequest) (testNow : Option Int) (ctxDone : Bool)
        (env : GormEnv) (store : Option Int) (r : Reservation),
      (gormReserveOnce req testNow ctxDone env store).res = some r →
      r.now = some (testNow.getD env.dbNow)) ∧
    (∀ (req : ReserveRequest) (ctxDone : Bool) (store : Option Int)
        (evalErr : Option GoError),
      req.now = none →
      redisReserve req ctxDone store evalErr =
        ⟨store, none, some (.wrap "reserve request" .invalidParameters)⟩) ∧
    (∀ (sstore : Option Int) (dpt burst tokens nowArg mfr redisTime : Int),
      0 < dpt → 0 < burst → 0 < tokens → tokens ≤ burst → nowArg ≤ 0 →
      ∃ (s1 : Option Int) (st t : Int),
        luaScriptEval sstore dpt burst tokens nowArg mfr redisTime =
          (s1, [st, t, redisTime])) ∧
    (∀ (sstore : Option Int) (dpt burst tokens nowArg mfr redisTime : Int),
      0 < dpt → 0 < burst → 0 < tokens → tokens ≤ burst → 0 < nowArg →
      ∃ (s1 : Option Int) (st t : Int),
        luaScriptEval sstore dpt burst tokens nowArg mfr redisTime =
          (s1, [st, t, nowArg])) := by
  refine ⟨?_, ?_, ?_, ?_⟩
  · intro req testNow ctxDone env store r hres
    revert hres
    unfold gormReserveOnce
    dsimp only
    repeat' split
    all_goals intro hres
    all_goals first
      | exact Option.noConfusion hres
      | (have hr := Option.some.inj hres
         rw [← hr])
  · intro req ctxDone store evalErr hnow
    unfold redisReserve
    rw [if_pos (Or.inr (Or.inl hnow))]
  · intro sstore dpt burst tokens nowArg mfr redisTime hD hB hT hTB hn
    unfold luaScriptEval
    rw [if_neg (by push_neg; exact ⟨by omega, by omega, by omega, by omega⟩)]
    dsimp only
    rw [if_pos hn]
    cases sstore with
    | none =>
      dsimp only
      repeat' split
      all_goals first
        | exact ⟨_, -1, _, rfl⟩
        | exact ⟨_, 0, _, rfl⟩
    | some b =>
      dsimp only
      repeat' split
      all_goals first
        | exact ⟨_, -1, _, rfl⟩
        | exact ⟨_, 0, _, rfl⟩
  · intro sstore dpt burst tokens nowArg mfr redisTime hD hB hT hTB hn
    unfold luaScriptEval
    rw [if_neg (by push_neg; exact ⟨by omega, by omega, by omega, by omega⟩)]
    dsimp only
    rw [if_neg (by omega : ¬ nowArg ≤ 0)]
    cases sstore with
    | none =>
      dsimp only
      repeat' split
      all_goals first
        | exact ⟨_, -1, _, rfl⟩
        | exact ⟨_, 0, _, rfl⟩
    | some b =>
      dsimp only
      repeat' split
      all_goals first
        | exact ⟨_, -1, _, rfl⟩
        | exact ⟨_, 0, _, rfl⟩

/-- witness for the amended C4: with no test override the reservation
reports the database time 1000 even though the request carried now = 5. -/
theorem spec_c4_clock_contract_witness :
    (⟨⟨"k", 10, 1, some 5, 1, 0⟩, true, 1000, some 1000⟩ : Reservation).now =
      some ((none : Option Int).getD 1000) :=
  spec_c4_clock_contract.1 ⟨"k", 10, 1, some 5, 1, 0⟩ none false (benignEnv 1000)
    none ⟨⟨"k", 10, 1, some 5, 1, 0⟩, true, 1000, some 1000⟩ (by decide)


/-- C6 counterexample: a request satisfying every listed condition
(non-empty key, D > 0, B > 0, 0 < T <= B) still draws an
invalid-parameters error from the script driver, because that driver
additionally rejects an omitted (zero) now. -/
theorem spec_c6_counterexample :
    ¬ badParams ⟨"a", 2000, 2, none, 1, 0⟩ ∧
    redisReserve ⟨"a", 2000, 2, none, 1, 0⟩ false none none =
      ⟨none, none, some (.wrap "reserve request" .invalidParameters)⟩ := by
  constructor
  · decide
  · decide

/-- C6 (amended): each driver fails fast with an invalid-parameters error,
leaving the store untouched, whenever the key is empty, D <= 0, B <= 0,
T <= 0, or T > B; for the transactional driver these are exactly the
invalid-parameter failures (a valid request on a healthy store yields no
error at all); the script driver additionally returns invalid-parameters
when now is omitted or when now is not after the epoch at microsecond
precision, and otherwise a valid request yields no error. -/
theorem spec_c6_validation :
    (∀ (req : ReserveRequest) (testNow : Option Int) (ctxDone : Bool)
        (env0 env1 : GormEnv) (store : Option Int),
      badParams req →
      gormReserve req testNow ctxDone env0 env1 store =
        ⟨store, none, some (.wrap "reserve request" .invalidParameters)⟩) ∧
    (∀ (req : ReserveRequest) (testNow : Option Int) (dbNow : Int)
        (store : Option Int),
      ¬ badParams req →
      (gormReserve req testNow false (benignEnv dbNow) (benignEnv dbNow)
        store).err = none) ∧
    (∀ (req : ReserveRequest) (ctxDone : Bool) (store : Option Int)
        (evalErr : Option GoError),
      badParams req →
      redisReserve req ctxDone store evalErr =
        ⟨store, none, some (.wrap "reserve request" .invalidParameters)⟩) ∧
    (∀ (req : ReserveRequest) (ctxDone : Bool) (store : Option Int)
        (evalErr : Option GoError),
      req.now = none →
      redisReserve req ctxDone store evalErr =
        ⟨store, none, some (.wrap "reserve request" .invalidParameters)⟩) ∧
    (∀ (req : ReserveRequest) (store : Option Int) (t : Int),
      ¬ badParams req → req.now = some t → nanoToMicro t ≤ 0 →
      redisReserve req false store none =
        ⟨store, none, some (.wrap "lua script" .invalidParameters)⟩) ∧
    (∀ (req : ReserveRequest) (store : Option Int) (t : Int),
      ¬ badParams req → req.now = some t → 0 < nanoToMicro t →
      0 < durationMicroseconds req.durationPerToken →
      (redisReserve req false store none).err = none) := by
  refine ⟨?_, ?_, ?_, ?_, ?_, ?_⟩
  · intro req testNow ctxDone env0 env1 store h
    unfold gormReserve
    dsimp only
    unfold gormReserveOnce
    rw [if_pos h]
    dsimp only
    rw [show isDuplicateKeyError (.wrap "reserve request" .invalidParameters)
      = false from by decide]
    simp
  · intro req testNow dbNow store h
    have h1 : (gormReserveOnce req testNow false (benignEnv dbNow) store).err
        = none := by
      unfold gormReserveOnce benignEnv
      dsimp only
      rw [if_neg h]
      simp only [Bool.false_eq_true, if_false]
      repeat' split
      all_goals rfl
    rw [gormReserve_of_err_none req testNow false (benignEnv dbNow)
      (benignEnv dbNow) store h1]
    exact h1
  · intro req ctxDone store evalErr h
    unfold redisReserve
    rw [if_pos (by unfold badParams at h; tauto)]
  · intro req ctxDone store evalErr h
    unfold redisReserve
    rw [if_pos (Or.inr (Or.inl h))]
  · intro req store t hbad hnow ht
    unfold badParams at hbad
    push_neg at hbad
    obtain ⟨hkey, hD, hB, hT, hTB⟩ := hbad
    unfold redisReserve
    rw [if_neg (by
      push_neg
      exact ⟨hkey, by rw [hnow]; exact fun hc => Option.noConfusion hc,
        by omega, by omega, by omega, by omega⟩)]
    simp only [Bool.false_eq_true, if_false]
    rw [hnow]
    unfold redisScriptEval
    rw [if_pos (Or.inl (by dsimp only [Option.getD]; exact ht))]
    rfl
  · intro req store t hbad hnow ht hDm
    unfold badParams at hbad
    push_neg at hbad
    obtain ⟨hkey, hD, hB, hT, hTB⟩ := hbad
    unfold redisReserve
    rw [if_neg (by
      push_neg
      exact ⟨hkey, by rw [hnow]; exact fun hc => Option.noConfusion hc,
        by omega, by omega, by omega, by omega⟩)]
    simp only [Bool.false_eq_true, if_false]
    rw [hnow]
    unfold redisScriptEval
    rw [if_neg (by
      push_neg
      refine ⟨by dsimp only [Option.getD]; omega, by omega, by omega, by omega, by omega⟩)]
    dsimp only
    split
    · rfl
    · rfl

/-- witness for the amended C6: an empty key is rejected by the GORM driver
before any storage access, and a fully valid request with a positive now
passes the script driver without error. -/
theorem spec_c6_validation_witness :
    gormReserve ⟨"", 10, 3, none, 2, 0⟩ (some 100) false (benignEnv 77)
        (benignEnv 77) (some 1) =
      ⟨some 1, none, some (.wrap "reserve request" .invalidParameters)⟩ ∧
    (redisReserve ⟨"k", 10000, 2, some 2000000, 1, 0⟩ false none none).err = none :=
  ⟨spec_c6_validation.1 ⟨"", 10, 3, none, 2, 0⟩ (some 100) false (benignEnv 77)
      (benignEnv 77) (some 1) (by decide),
   spec_c6_validation.2.2.2.2.2 ⟨"k", 10000, 2, some 2000000, 1, 0⟩ none 2000000
      (by decide) (by decide) (by decide) (by decide)⟩


/-- C9 counterexample: the driver in src accepts a 2-element integer reply
as a reservation — not translating this non-3-element shape into a storage
error — and turns a genuine 3-element reply (the standalone script's shape)
into a format error instead of a reservation. -/
theorem spec_c9_counterexample :
    redisParseResult ⟨"k", 1000, 1, some 1000000, 1, 0⟩ (.arr [.int 0, .int 5]) =
        (some ⟨⟨"k", 1000, 1, some 1000000, 1, 0⟩, true, 5000, none⟩, none) ∧
    redisParseResult ⟨"k", 1000, 1, some 1000000, 1, 0⟩
        (.arr [.int 0, .int 5, .int 7]) =
      (none, some (.wrap "length of result" errUnexpectedScriptResultFormat)) := by
  decide

/-- C9 (amended): the standalone script always returns a fixed 3-element
list with status in {0, -1, -2}, but the script embedded in the src driver
returns a fixed 2-element list {status, timeToAct} with the same status
codes, and the driver accepts exactly the 2-element integer shape: status
-2 becomes the invalid-parameters error, any other accepted status yields a
reservation with OK = (status == 0), and every other reply shape becomes a
storage (format) error. -/
theorem spec_c9_result_shape :
    (∀ (sstore : Option Int) (dpt burst tokens nowArg mfr redisTime : Int),
      ∃ (s t n : Int),
        (luaScriptEval sstore dpt burst tokens nowArg mfr redisTime).2 =
            [s, t, n] ∧
          (s = 0 ∨ s = -1 ∨ s = -2)) ∧
    (∀ (sstore : Option Int) (dpt burst tokens now mfr : Int),
      ∃ (s t : Int),
        (redisScriptEval sstore dpt burst tokens now mfr).2 = [s, t] ∧
          (s = 0 ∨ s = -1 ∨ s = -2)) ∧
    (∀ (req : ReserveRequest) (v : RVal) (r : Reservation),
      (redisParseResult req v).1 = some r →
      ∃ (s t : Int), v = .arr [.int s, .int t] ∧ s ≠ -2) ∧
    (∀ (req : ReserveRequest) (s t : Int),
      (s = -2 → redisParseResult req (.arr [.int s, .int t]) =
        (none, some (.wrap "lua script" .invalidParameters))) ∧
      (s ≠ -2 → redisParseResult req (.arr [.int s, .int t]) =
        (some ⟨req, decide (s = 0), microToNano t, none⟩, none))) ∧
    (∀ (req : ReserveRequest) (v : RVal),
      (∀ (s t : Int), v ≠ .arr [.int s, .int t]) →
      (redisParseResult req v).1 = none ∧
        ((redisParseResult req v).2).isSome = true) := by
  refine ⟨?_, ?_, ?_, ?_, ?_⟩
  · intro sstore dpt burst tokens nowArg mfr redisTime
    unfold luaScriptEval
    dsimp only
    repeat' split
    all_goals first
      | exact ⟨0, _, _, rfl, Or.inl rfl⟩
      | exact ⟨-1, _, _, rfl, Or.inr (Or.inl rfl)⟩
      | exact ⟨-2, 0, 0, rfl, Or.inr (Or.inr rfl)⟩
  · intro sstore dpt burst tokens now mfr
    unfold redisScriptEval
    dsimp only
    repeat' split
    all_goals first
      | exact ⟨0, _, rfl, Or.inl rfl⟩
      | exact ⟨-1, _, rfl, Or.inr (Or.inl rfl)⟩
      | exact ⟨-2, 0, rfl, Or.inr (Or.inr rfl)⟩
  · intro req v r h
    revert h
    unfold redisParseResult
    split
    · rename_i s t
      intro h
      by_cases hs : s = -2
      · rw [if_pos hs] at h
        exact Option.noConfusion h
      · exact ⟨s, t, rfl, hs⟩
    · intro h
      exact Option.noConfusion h
    · intro h
      exact Option.noConfusion h
    · intro h
      exact Option.noConfusion h
  · intro req s t
    constructor
    · intro hs
      unfold redisParseResult
      dsimp only
      rw [if_pos hs]
    · intro hs
      unfold redisParseResult
      dsimp only
      rw [if_neg hs]
  · intro req v hshape
    unfold redisParseResult
    split
    · rename_i s t
      exact absurd rfl (hshape s t)
    · exact ⟨rfl, rfl⟩
    · exact ⟨rfl, rfl⟩
    · exact ⟨rfl, rfl⟩

/-- witness for the amended C9: the reply accepted in the counterexample
indeed has the 2-element integer shape with a status other than -2. -/
theorem spec_c9_result_shape_witness :
    ∃ (s t : Int),
      (RVal.arr [.int 0, .int 5]) = .arr [.int s, .int t] ∧ s ≠ -2 :=
  spec_c9_result_shape.2.2.1 ⟨"k", 1000, 1, some 1000000, 1, 0⟩
    (.arr [.int 0, .int 5]) ⟨⟨"k", 1000, 1, some 1000000, 1, 0⟩, true, 5000, none⟩
    (by decide)

end Ratelimiter
